import Mathlib

/-!
Shallow embedding of src/src/vdsotest.c: the run context, failure
accounting, deadline-timer stop flag, the three mode dispatchers
(verify, bench, abi) and the driver (main).  Output to stdout/stderr is
modelled as a list of structured events.  The struct field types live in
vdsotest.h (not in src); following the spec the failure counter is the
unbounded counter the spec describes and the stop flag is a boolean.
-/

namespace Vdsotest

/-- Field `it_value` of `struct itimerspec`: seconds plus nanoseconds. -/
structure Timespec where
  tv_sec : Nat
  tv_nsec : Nat
  deriving DecidableEq, Repr

/-- Only the `it_value` member of `struct itimerspec` is ever set in vdsotest.c
(`it_interval` stays zero, making the timer one-shot). -/
structure Itimerspec where
  it_value : Timespec
  deriving DecidableEq, Repr

/-- Modelled from the spec: helper `timespec_to_nsec` lives in util.h, which is
not under src; the spec describes the deadline as a total delay expressed as
seconds + nanoseconds. -/
def timespec_to_nsec (ts : Timespec) : Nat :=
  ts.tv_sec * 1000000000 + ts.tv_nsec

/-- Modelled from the spec: helper `nsec_to_timespec` lives in util.h, which is
not under src; inverse of `timespec_to_nsec`, normalising nanoseconds. -/
def nsec_to_timespec (ns : Nat) : Timespec :=
  ⟨ns / 1000000000, ns % 1000000000⟩

/-- One interval measurement of `struct bench_results` (declared in
vdsotest.h): a call count and a derived calls-per-second rate. -/
structure BenchInterval where
  calls : Nat
  calls_per_sec : Nat
  deriving DecidableEq, Repr

/-- The `struct bench_results` value a bench entry point populates: one
interval for the syscall path, one for the vDSO path. -/
structure BenchResults where
  sys_interval : BenchInterval
  vdso_interval : BenchInterval
  deriving DecidableEq, Repr

/-- The run context `struct ctx` (fields per vdsotest.c's uses and the spec's
data model): deadline, failure counter and threshold, stop flag, verbosity
flags, and the two resolved names.  The CPU-affinity mask is advisory
metadata never read by the logic modelled here and is omitted. -/
structure Ctx where
  duration : Itimerspec
  fails : Nat
  max_fails : Nat
  should_stop : Bool
  verbose : Bool
  debug : Bool
  api : String
  test_type : String
  deriving DecidableEq, Repr

/-- One line of output.  stderr lines: `failureMsg` (the suite-supplied text of
`log_failure`), `thresholdNotice` (the "Failure threshold (N) reached;
stopping test." line of `inc_fail_count`).  stdout lines: the `verbose` call
and the two `printf` report lines of `testsuite_run_bench`, and main's
unimplemented / failure-summary lines.  The speedup field of `vdsoRateLine`
is the long-double quotient vdso rate / sys rate; `none` stands for the
non-finite value ordinary floating-point division yields when the
denominator is zero. -/
inductive Event where
  | failureMsg : Event
  | thresholdNotice : Nat → Event
  | verboseBench : String → Nat → Nat → Event
  | sysRateLine : String → Nat → Event
  | vdsoRateLine : String → Nat → Option ℚ → Event
  | unimplementedLine : String → String → Event
  | failureSummary : String → String → Nat → Event
  deriving DecidableEq, Repr

/-- `inc_fail_count`: increment the failure counter; when it reaches (or is
beyond) `max_fails`, set the stop flag and print the threshold notice. -/
def inc_fail_count (ctx : Ctx) : Ctx × List Event :=
  let ctx1 : Ctx := { ctx with fails := ctx.fails + 1 }
  if ctx1.fails ≥ ctx1.max_fails then
    ({ ctx1 with should_stop := true }, [Event.thresholdNotice ctx1.max_fails])
  else
    (ctx1, [])

/-- `log_failure`: print the failure message to stderr, then bump the
failure counter via `inc_fail_count`. -/
def log_failure (ctx : Ctx) : Ctx × List Event :=
  let r := inc_fail_count ctx
  (r.1, Event.failureMsg :: r.2)

/-- `expiration_handler`: the timer-expiry signal handler writes 1 into the
context's stop flag, nothing else. -/
def expiration_handler (ctx : Ctx) : Ctx :=
  { ctx with should_stop := true }

/-- `ctx_start_timer`: clear the stop flag, then (re-)arm the one-shot
monotonic timer for `ctx.duration`.  The OS timer itself is external; its
later expiry is modelled by `expiration_handler`. -/
def ctx_start_timer (ctx : Ctx) : Ctx :=
  { ctx with should_stop := false }

/-- `split_duration`: halve the deadline (total nanoseconds divided by two) so
that the two timed bench phases together match the user-specified time. -/
def split_duration (ctx : Ctx) : Ctx :=
  { ctx with duration :=
      { it_value := nsec_to_timespec (timespec_to_nsec ctx.duration.it_value / 2) } }

/-- `enum testfunc_result`. -/
inductive TestfuncResult where
  | TF_OK : TestfuncResult
  | TF_FAIL : TestfuncResult
  | TF_NOIMPL : TestfuncResult
  deriving DecidableEq, Repr

/-- A `struct test_suite`: a name plus up to three optional entry points.
Entry points are arbitrary plugged-in code acting on the context; a bench
entry point additionally fills in a `BenchResults`.  Each returns the output
it printed while running. -/
structure TestSuite where
  name : String
  verify : Option (Ctx → Ctx × List Event)
  bench : Option (Ctx → Ctx × BenchResults × List Event)
  abi : Option (Ctx → Ctx × List Event)

/-- `testsuite_run_bench`: NOIMPL when no bench entry point; otherwise halve
the duration, run the entry point, FAIL when the failure counter is nonzero,
else print the two rate report lines (plus the verbose line when enabled)
and return OK. -/
def testsuite_run_bench (ctx : Ctx) (ts : TestSuite) :
    TestfuncResult × Ctx × List Event :=
  match ts.bench with
  | none => (TestfuncResult.TF_NOIMPL, ctx, [])
  | some bench =>
    let ctx1 := split_duration ctx
    let r := bench ctx1
    let ctx2 := r.1
    let bres := r.2.1
    let evs := r.2.2
    if ctx2.fails ≠ 0 then
      (TestfuncResult.TF_FAIL, ctx2, evs)
    else
      (TestfuncResult.TF_OK, ctx2,
        evs ++
        (if ctx2.verbose || ctx2.debug then
          [Event.verboseBench ts.name bres.sys_interval.calls bres.vdso_interval.calls]
        else []) ++
        [Event.sysRateLine ts.name bres.sys_interval.calls_per_sec,
         Event.vdsoRateLine ts.name bres.vdso_interval.calls_per_sec
           (if bres.sys_interval.calls_per_sec = 0 then none
            else some ((bres.vdso_interval.calls_per_sec : ℚ) /
                       (bres.sys_interval.calls_per_sec : ℚ)))])

/-- `testsuite_run_verify`: NOIMPL when no verify entry point; otherwise run
it and report FAIL exactly when the failure counter is nonzero. -/
def testsuite_run_verify (ctx : Ctx) (ts : TestSuite) :
    TestfuncResult × Ctx × List Event :=
  match ts.verify with
  | none => (TestfuncResult.TF_NOIMPL, ctx, [])
  | some verify =>
    let r := verify ctx
    ((if r.1.fails ≠ 0 then TestfuncResult.TF_FAIL else TestfuncResult.TF_OK),
     r.1, r.2)

/-- `testsuite_run_abi`: structurally identical to verify. -/
def testsuite_run_abi (ctx : Ctx) (ts : TestSuite) :
    TestfuncResult × Ctx × List Event :=
  match ts.abi with
  | none => (TestfuncResult.TF_NOIMPL, ctx, [])
  | some abi =>
    let r := abi ctx
    ((if r.1.fails ≠ 0 then TestfuncResult.TF_FAIL else TestfuncResult.TF_OK),
     r.1, r.2)

/-- `testfunc_t`. -/
def Testfunc : Type :=
  Ctx → TestSuite → TestfuncResult × Ctx × List Event

/-- The mode registry `test_func_htab` as populated by `register_testfuncs`
(keys "verify", "bench", "abi").  Modelled from the spec: the hashtable
implementation lives in util.c/h (not under src); the spec describes it as a
name-keyed mapping returning the registered value or an explicit not-found. -/
def lookup_tf (name : String) : Option Testfunc :=
  if name = "verify" then some testsuite_run_verify
  else if name = "bench" then some testsuite_run_bench
  else if name = "abi" then some testsuite_run_abi
  else none

/-- `EXIT_SUCCESS`. -/
def EXIT_SUCCESS : Nat := 0

/-- `EXIT_FAILURE`. -/
def EXIT_FAILURE : Nat := 1

/-- Outcome of `main` after argument parsing: either `error(EXIT_FAILURE, ...)`
terminated the process (fatal, with its diagnostic), or the process ran to
completion with an exit status and its printed output. -/
inductive MainResult where
  | fatal : Nat → String → MainResult
  | exited : Nat → List Event → MainResult
  deriving Repr

/-- `main` after `argp_parse` has filled in `ctx` (so `ctx.api` and
`ctx.test_type` hold the two positional arguments): look up the suite, then
the test function — a failed lookup is fatal — run the dispatcher, and map
NOIMPL to an informational line with success status and a nonzero failure
count to a summary line with failure status.  The suite registry
`test_suite_htab` is populated by the API plugins (not under src), so
`main_run` is parametrised over it as a name-keyed map per the spec. -/
def main_run (suites : String → Option TestSuite) (ctx : Ctx) : MainResult :=
  match suites ctx.api with
  | none =>
    MainResult.fatal EXIT_FAILURE
      ("Unknown test suite " ++ ctx.api ++ " specified")
  | some ts =>
    match lookup_tf ctx.test_type with
    | none =>
      MainResult.fatal EXIT_FAILURE
        ("Unknown test function " ++ ctx.test_type ++ " specified")
    | some tf =>
      let r := tf ctx ts
      let tf_ret := r.1
      let ctx2 := r.2.1
      let evs := r.2.2
      if tf_ret = TestfuncResult.TF_NOIMPL then
        MainResult.exited EXIT_SUCCESS
          (evs ++ [Event.unimplementedLine ctx2.api ctx2.test_type])
      else if ctx2.fails > 0 then
        MainResult.exited EXIT_FAILURE
          (evs ++ [Event.failureSummary ctx2.api ctx2.test_type ctx2.fails])
      else
        MainResult.exited EXIT_SUCCESS evs

/-- The harness operations that touch a context during a run, used to state
the stop-flag and failure-counter invariants: a failure report
(`log_failure`), a timer arm (`ctx_start_timer`), a timer expiry
(`expiration_handler`) and the bench duration split (`split_duration`). -/
inductive Op where
  | report : Op
  | arm : Op
  | expire : Op
  | split : Op
  deriving DecidableEq, Repr

/-- Apply one harness operation to the context. -/
def stepOp (ctx : Ctx) : Op → Ctx × List Event
  | Op.report => log_failure ctx
  | Op.arm => (ctx_start_timer ctx, [])
  | Op.expire => (expiration_handler ctx, [])
  | Op.split => (split_duration ctx, [])

/-- Apply a sequence of harness operations, left to right. -/
def runOps (ctx : Ctx) (ops : List Op) : Ctx :=
  ops.foldl (fun c op => (stepOp c op).1) ctx

/-- `N` consecutive `log_failure` calls. -/
def iterate_log_failure : Nat → Ctx → Ctx
  | 0, ctx => ctx
  | n + 1, ctx => iterate_log_failure n (log_failure ctx).1


/-! ### Concrete fixtures used by witnesses and counterexamples -/

/-- Default-initialised context (`ctx_init_defaults`: 1-second deadline,
`max_fails = 10`) after argument parsing resolved the two names. -/
def ctx0 : Ctx :=
  { duration := { it_value := { tv_sec := 1, tv_nsec := 0 } }
    fails := 0
    max_fails := 10
    should_stop := false
    verbose := false
    debug := false
    api := "clock-gettime"
    test_type := "verify" }

/-- Context one failure short of the default threshold. -/
def ctx9 : Ctx := { ctx0 with fails := 9 }

/-- Context whose stop flag is already set. -/
def ctxStopped : Ctx := { ctx0 with should_stop := true }

/-- Context with threshold 1. -/
def ctxT1 : Ctx := { ctx0 with max_fails := 1 }

/-- Context with threshold 0. -/
def ctxT0 : Ctx := { ctx0 with max_fails := 0 }

/-- Context already far beyond a threshold of 1. -/
def ctxBeyond : Ctx := { ctx0 with max_fails := 1, fails := 5 }

/-- Context requesting an unregistered mode name. -/
def ctxBogus : Ctx := { ctx0 with test_type := "bogus" }

/-- A verify/abi entry point that reports nothing. -/
def idVerify : Ctx → Ctx × List Event := fun c => (c, [])

/-- Deterministic bench results: 7 syscalls/s, 21 vdso calls/s. -/
def okBres : BenchResults :=
  { sys_interval := { calls := 1000, calls_per_sec := 7 }
    vdso_interval := { calls := 3000, calls_per_sec := 21 } }

/-- A bench entry point producing `okBres` and no failures. -/
def okBench : Ctx → Ctx × BenchResults × List Event :=
  fun c => (c, okBres, [])

/-- A suite implementing all three entry points. -/
def okSuite : TestSuite :=
  { name := "clock-gettime", verify := some idVerify
    bench := some okBench, abi := some idVerify }

/-- A registered suite implementing none of the entry points. -/
def emptySuite : TestSuite :=
  { name := "clock-gettime", verify := none, bench := none, abi := none }

/-- Bench results whose kernel-entry (syscall) rate is zero. -/
def zeroRateBres : BenchResults :=
  { sys_interval := { calls := 1000, calls_per_sec := 0 }
    vdso_interval := { calls := 5000, calls_per_sec := 5 } }

/-- A bench entry point recording a zero kernel-entry rate, no failures. -/
def zeroRateBench : Ctx → Ctx × BenchResults × List Event :=
  fun c => (c, zeroRateBres, [])

/-- A suite whose bench phase measures a zero kernel-entry rate. -/
def zeroRateSuite : TestSuite :=
  { name := "clock-gettime", verify := none
    bench := some zeroRateBench, abi := none }

/-- A bench entry point that reports one failure via `log_failure`. -/
def failBench : Ctx → Ctx × BenchResults × List Event :=
  fun c =>
    let r := log_failure c
    (r.1,
     { sys_interval := { calls := 0, calls_per_sec := 0 }
       vdso_interval := { calls := 0, calls_per_sec := 0 } },
     r.2)

/-- A suite whose bench entry point reports a failure. -/
def failSuite : TestSuite :=
  { name := "clock-gettime", verify := none
    bench := some failBench, abi := none }

/-- A suite registry holding exactly `emptySuite` under its name. -/
def suitesReg : String → Option TestSuite :=
  fun s => if s = "clock-gettime" then some emptySuite else none

/-- The empty suite registry. -/
def noSuites : String → Option TestSuite :=
  fun _ => none

/-! ### Helper lemmas -/

/-- `inc_fail_count` always increments the counter by exactly one. -/
lemma inc_fail_count_fst_fails (ctx : Ctx) :
    (inc_fail_count ctx).1.fails = ctx.fails + 1 := by
  simp only [inc_fail_count]
  split <;> rfl

/-- `log_failure` always increments the counter by exactly one. -/
lemma log_failure_fst_fails (ctx : Ctx) :
    (log_failure ctx).1.fails = ctx.fails + 1 :=
  inc_fail_count_fst_fails ctx

/-- When the incremented counter is at or beyond the threshold,
`inc_fail_count` sets the stop flag and emits the one-line notice. -/
lemma inc_fail_count_ge (ctx : Ctx) (h : ctx.max_fails ≤ ctx.fails + 1) :
    (inc_fail_count ctx).1.fails = ctx.fails + 1 ∧
    (inc_fail_count ctx).1.should_stop = true ∧
    (inc_fail_count ctx).2 = [Event.thresholdNotice ctx.max_fails] := by
  simp only [inc_fail_count]
  split
  · exact ⟨rfl, rfl, rfl⟩
  · next hc => exact absurd h hc

/-- A set stop flag survives `inc_fail_count`. -/
lemma inc_fail_count_preserves_stop (ctx : Ctx) (h : ctx.should_stop = true) :
    (inc_fail_count ctx).1.should_stop = true := by
  simp only [inc_fail_count]
  split
  · rfl
  · exact h

/-- Every harness operation other than a timer arm keeps a set stop flag. -/
lemma stepOp_preserves_stop (ctx : Ctx) (op : Op) (h : ctx.should_stop = true)
    (hop : op ≠ Op.arm) : (stepOp ctx op).1.should_stop = true := by
  cases op with
  | report => exact inc_fail_count_preserves_stop ctx h
  | arm => exact absurd rfl hop
  | expire => rfl
  | split => exact h

/-- A set stop flag survives any arm-free sequence of harness operations. -/
lemma runOps_preserves_stop (ops : List Op) :
    ∀ ctx : Ctx, ctx.should_stop = true → Op.arm ∉ ops →
      (runOps ctx ops).should_stop = true := by
  induction ops with
  | nil => intro ctx h _; exact h
  | cons a l ih =>
    intro ctx h hmem
    have ha : a ≠ Op.arm := by
      intro e
      exact hmem (by rw [e]; exact List.mem_cons_self _ _)
    have h2 := stepOp_preserves_stop ctx a h ha
    have hmem2 : Op.arm ∉ l := fun hl => hmem (List.mem_cons_of_mem _ hl)
    have h3 := ih (stepOp ctx a).1 h2 hmem2
    simpa [runOps] using h3

/-- The mode registry finds "verify". -/
lemma lookup_tf_verify : lookup_tf "verify" = some testsuite_run_verify := rfl

/-- The mode registry finds "bench". -/
lemma lookup_tf_bench : lookup_tf "bench" = some testsuite_run_bench := rfl

/-- The mode registry finds "abi". -/
lemma lookup_tf_abi : lookup_tf "abi" = some testsuite_run_abi := rfl

/-- The mode registry rejects "bogus". -/
lemma lookup_tf_bogus : lookup_tf "bogus" = none := rfl

/-! ### Claims -/

/-- C1: for each mode dispatcher (verify, bench, abi), when the suite
provides the corresponding entry point, the outcome is TF_FAIL if and only
if the context's failure counter is nonzero after the entry point returns,
and TF_OK otherwise. -/
theorem c1_dispatcher_fail_iff (ctx : Ctx) (ts : TestSuite) :
    (∀ f, ts.verify = some f →
      (((testsuite_run_verify ctx ts).1 = TestfuncResult.TF_FAIL ↔
          (testsuite_run_verify ctx ts).2.1.fails ≠ 0) ∧
       ((testsuite_run_verify ctx ts).1 = TestfuncResult.TF_OK ↔
          (testsuite_run_verify ctx ts).2.1.fails = 0))) ∧
    (∀ f, ts.bench = some f →
      (((testsuite_run_bench ctx ts).1 = TestfuncResult.TF_FAIL ↔
          (testsuite_run_bench ctx ts).2.1.fails ≠ 0) ∧
       ((testsuite_run_bench ctx ts).1 = TestfuncResult.TF_OK ↔
          (testsuite_run_bench ctx ts).2.1.fails = 0))) ∧
    (∀ f, ts.abi = some f →
      (((testsuite_run_abi ctx ts).1 = TestfuncResult.TF_FAIL ↔
          (testsuite_run_abi ctx ts).2.1.fails ≠ 0) ∧
       ((testsuite_run_abi ctx ts).1 = TestfuncResult.TF_OK ↔
          (testsuite_run_abi ctx ts).2.1.fails = 0))) := by
  refine ⟨fun f hf => ?_, fun f hf => ?_, fun f hf => ?_⟩
  · simp only [testsuite_run_verify, hf]
    by_cases h : (f ctx).1.fails = 0 <;> simp [h]
  · simp only [testsuite_run_bench, hf]
    by_cases h : (f (split_duration ctx)).1.fails = 0 <;> simp [h]
  · simp only [testsuite_run_abi, hf]
    by_cases h : (f ctx).1.fails = 0 <;> simp [h]

/-- Witness for C1 at a concrete suite with all three entry points. -/
theorem c1_dispatcher_fail_iff_witness :
    (((testsuite_run_verify ctx0 okSuite).1 = TestfuncResult.TF_FAIL ↔
        (testsuite_run_verify ctx0 okSuite).2.1.fails ≠ 0) ∧
     ((testsuite_run_verify ctx0 okSuite).1 = TestfuncResult.TF_OK ↔
        (testsuite_run_verify ctx0 okSuite).2.1.fails = 0)) ∧
    ((testsuite_run_bench ctx0 okSuite).1 = TestfuncResult.TF_FAIL ↔
       (testsuite_run_bench ctx0 okSuite).2.1.fails ≠ 0) ∧
    ((testsuite_run_abi ctx0 okSuite).1 = TestfuncResult.TF_FAIL ↔
       (testsuite_run_abi ctx0 okSuite).2.1.fails ≠ 0) :=
  ⟨(c1_dispatcher_fail_iff ctx0 okSuite).1 idVerify rfl,
   ((c1_dispatcher_fail_iff ctx0 okSuite).2.1 okBench rfl).1,
   ((c1_dispatcher_fail_iff ctx0 okSuite).2.2 idVerify rfl).1⟩

/-- C3: failure reporting is monotone — after N `log_failure` calls the
failure counter equals its prior value plus N, and no harness operation
ever decreases the counter. -/
theorem c3_log_failure_monotone (ctx : Ctx) (n : Nat) (op : Op) :
    (iterate_log_failure n ctx).fails = ctx.fails + n ∧
    ctx.fails ≤ (stepOp ctx op).1.fails := by
  constructor
  · induction n generalizing ctx with
    | zero => rfl
    | succ k ih =>
      show (iterate_log_failure k (log_failure ctx).1).fails = ctx.fails + (k + 1)
      rw [ih, log_failure_fst_fails]
      omega
  · cases op with
    | report =>
      show ctx.fails ≤ (log_failure ctx).1.fails
      rw [log_failure_fst_fails]
      omega
    | arm => exact le_refl _
    | expire => exact le_refl _
    | split => exact le_refl _

/-- C5: when the suite has a bench entry point, the bench dispatcher
invokes it on the context whose deadline has been halved exactly once
(the resulting context is the entry point's image of `split_duration ctx`,
not of a twice-split context), and `split_duration` halves the total
seconds+nanoseconds delay. -/
theorem c5_bench_halves (ctx : Ctx) (ts : TestSuite)
    (f : Ctx → Ctx × BenchResults × List Event) (h : ts.bench = some f) :
    (testsuite_run_bench ctx ts).2.1 = (f (split_duration ctx)).1 ∧
    timespec_to_nsec (split_duration ctx).duration.it_value =
      timespec_to_nsec ctx.duration.it_value / 2 := by
  constructor
  · simp only [testsuite_run_bench, h]
    split <;> rfl
  · simp only [split_duration, timespec_to_nsec, nsec_to_timespec]
    omega

/-- Witness for C5 at a concrete context and bench suite. -/
theorem c5_bench_halves_witness :
    (testsuite_run_bench ctx0 okSuite).2.1 = (okBench (split_duration ctx0)).1 ∧
    timespec_to_nsec (split_duration ctx0).duration.it_value =
      timespec_to_nsec ctx0.duration.it_value / 2 :=
  c5_bench_halves ctx0 okSuite okBench rfl

/-- C6: every `ctx_start_timer` call resets the stop flag to false before
arming, so after any sequence of harness operations ending in a timer arm
the stop flag reads false, whatever set it before. -/
theorem c6_start_timer_resets (ctx : Ctx) (ops : List Op) :
    (ctx_start_timer ctx).should_stop = false ∧
    (runOps ctx (ops ++ [Op.arm])).should_stop = false := by
  refine ⟨rfl, ?_⟩
  simp [runOps, stepOp, ctx_start_timer]

/-- C10: after any failure report, `inc_fail_count` sets the stop flag
whenever the post-increment counter is greater than or equal to the
threshold (not only at equality), and re-emits the threshold notice each
such time. -/
theorem c10_threshold_ge (ctx : Ctx) (h : ctx.fails + 1 ≥ ctx.max_fails) :
    (inc_fail_count ctx).1.fails = ctx.fails + 1 ∧
    (inc_fail_count ctx).1.should_stop = true ∧
    (inc_fail_count ctx).2 = [Event.thresholdNotice ctx.max_fails] :=
  inc_fail_count_ge ctx h

/-- Witness for C10: threshold 1 (first failure stops), threshold 0 (first
failure stops), and a failure far beyond the threshold re-emits the
notice. -/
theorem c10_threshold_ge_witness :
    (inc_fail_count ctxT1).1.should_stop = true ∧
    (inc_fail_count ctxT0).1.should_stop = true ∧
    (inc_fail_count ctxBeyond).2 = [Event.thresholdNotice 1] :=
  ⟨(c10_threshold_ge ctxT1 (by decide)).2.1,
   (c10_threshold_ge ctxT0 (by decide)).2.1,
   (c10_threshold_ge ctxBeyond (by decide)).2.2⟩

/-- C2: when a failure report takes the counter to the configured
threshold, that same `log_failure` call sets the stop flag and emits the
one-line notice; a set stop flag survives every arm-free sequence of
harness operations (it stays true until the next timer arm); and among
the harness operations only a failure report and a timer expiry ever take
the stop flag from false to true. -/
theorem c2_stop_flag_threshold (ctx : Ctx) (op : Op) (ops : List Op) :
    (ctx.fails + 1 = ctx.max_fails →
      (log_failure ctx).1.should_stop = true ∧
      (log_failure ctx).2 =
        [Event.failureMsg, Event.thresholdNotice ctx.max_fails]) ∧
    (ctx.should_stop = true → Op.arm ∉ ops →
      (runOps ctx ops).should_stop = true) ∧
    (ctx.should_stop = false → (stepOp ctx op).1.should_stop = true →
      op = Op.report ∨ op = Op.expire) := by
  refine ⟨?_, ?_, ?_⟩
  · intro h
    have hge : ctx.max_fails ≤ ctx.fails + 1 := le_of_eq h.symm
    refine ⟨(inc_fail_count_ge ctx hge).2.1, ?_⟩
    show Event.failureMsg :: (inc_fail_count ctx).2 = _
    rw [(inc_fail_count_ge ctx hge).2.2]
  · exact fun h hmem => runOps_preserves_stop ops ctx h hmem
  · intro h0 hset
    cases op with
    | report => exact Or.inl rfl
    | arm =>
      exact absurd hset (by simp [stepOp, ctx_start_timer])
    | expire => exact Or.inr rfl
    | split =>
      exact absurd hset (by simp [stepOp, split_duration, h0])

/-- Witness for C2: the tenth failure under the default threshold of 10
stops the run and prints the notice; a set flag survives reports,
expiries and splits; a report can take the flag from false to true. -/
theorem c2_stop_flag_threshold_witness :
    ((log_failure ctx9).1.should_stop = true ∧
     (log_failure ctx9).2 = [Event.failureMsg, Event.thresholdNotice 10]) ∧
    (runOps ctxStopped [Op.report, Op.expire, Op.split]).should_stop = true ∧
    (Op.report = Op.report ∨ Op.report = Op.expire) :=
  ⟨(c2_stop_flag_threshold ctx9 Op.report []).1 (by decide),
   (c2_stop_flag_threshold ctxStopped Op.report
      [Op.report, Op.expire, Op.split]).2.1 rfl (by decide),
   (c2_stop_flag_threshold ctxT1 Op.report []).2.2 rfl (by decide)⟩

/-- C4: a suite lacking the invoked mode's entry point makes that
dispatcher return TF_NOIMPL with the context (in particular the failure
counter) unchanged and nothing printed, and `main` then prints the
informational line and exits with the zero success status. -/
theorem c4_noimpl_success (ctx : Ctx) (ts : TestSuite)
    (suites : String → Option TestSuite) :
    EXIT_SUCCESS = 0 ∧
    (ts.verify = none →
      testsuite_run_verify ctx ts = (TestfuncResult.TF_NOIMPL, ctx, [])) ∧
    (ts.bench = none →
      testsuite_run_bench ctx ts = (TestfuncResult.TF_NOIMPL, ctx, [])) ∧
    (ts.abi = none →
      testsuite_run_abi ctx ts = (TestfuncResult.TF_NOIMPL, ctx, [])) ∧
    (suites ctx.api = some ts →
      ((ctx.test_type = "verify" → ts.verify = none →
          main_run suites ctx = MainResult.exited EXIT_SUCCESS
            [Event.unimplementedLine ctx.api ctx.test_type]) ∧
       (ctx.test_type = "bench" → ts.bench = none →
          main_run suites ctx = MainResult.exited EXIT_SUCCESS
            [Event.unimplementedLine ctx.api ctx.test_type]) ∧
       (ctx.test_type = "abi" → ts.abi = none →
          main_run suites ctx = MainResult.exited EXIT_SUCCESS
            [Event.unimplementedLine ctx.api ctx.test_type]))) := by
  refine ⟨rfl, fun hv => ?_, fun hb => ?_, fun ha => ?_, fun hs => ⟨?_, ?_, ?_⟩⟩
  · simp [testsuite_run_verify, hv]
  · simp [testsuite_run_bench, hb]
  · simp [testsuite_run_abi, ha]
  · intro hm hv
    rw [main_run, hs, hm, lookup_tf_verify]
    simp [testsuite_run_verify, hv, hm]
  · intro hm hb
    rw [main_run, hs, hm, lookup_tf_bench]
    simp [testsuite_run_bench, hb, hm]
  · intro hm ha
    rw [main_run, hs, hm, lookup_tf_abi]
    simp [testsuite_run_abi, ha, hm]

/-- Witness for C4 at a registered suite with no entry points. -/
theorem c4_noimpl_success_witness :
    testsuite_run_verify ctx0 emptySuite = (TestfuncResult.TF_NOIMPL, ctx0, []) ∧
    main_run suitesReg ctx0 = MainResult.exited EXIT_SUCCESS
      [Event.unimplementedLine "clock-gettime" "verify"] :=
  ⟨(c4_noimpl_success ctx0 emptySuite suitesReg).2.1 rfl,
   ((c4_noimpl_success ctx0 emptySuite suitesReg).2.2.2.2 rfl).1 rfl rfl⟩

/-- C7: an unknown API name or an unknown mode name makes `main` terminate
fatally (via `error(EXIT_FAILURE, ...)`) with a nonzero status and a
diagnostic, before any suite entry point is invoked — the fatal outcome
carries no run output and, for an unknown mode, is the same whatever the
looked-up suite's entry points are. -/
theorem c7_unknown_name_fatal (suites : String → Option TestSuite) (ctx : Ctx) :
    EXIT_FAILURE ≠ 0 ∧
    (suites ctx.api = none →
      main_run suites ctx = MainResult.fatal EXIT_FAILURE
        ("Unknown test suite " ++ ctx.api ++ " specified")) ∧
    (∀ ts, suites ctx.api = some ts → lookup_tf ctx.test_type = none →
      main_run suites ctx = MainResult.fatal EXIT_FAILURE
        ("Unknown test function " ++ ctx.test_type ++ " specified")) := by
  refine ⟨by decide, fun h => ?_, fun ts hs hm => ?_⟩
  · rw [main_run, h]
  · rw [main_run, hs, hm]

/-- Witness for C7: an empty registry rejects the API name, and the mode
registry rejects "bogus" even when the suite lookup succeeds. -/
theorem c7_unknown_name_fatal_witness :
    main_run noSuites ctx0 = MainResult.fatal EXIT_FAILURE
      ("Unknown test suite " ++ ctx0.api ++ " specified") ∧
    main_run suitesReg ctxBogus = MainResult.fatal EXIT_FAILURE
      ("Unknown test function " ++ ctxBogus.test_type ++ " specified") :=
  ⟨(c7_unknown_name_fatal noSuites ctx0).2.1 rfl,
   (c7_unknown_name_fatal suitesReg ctxBogus).2.2 emptySuite rfl lookup_tf_bogus⟩

/-- C8 counterexample: on a bench run measuring a zero kernel-entry
(syscall) rate, the dispatcher does not treat the speedup as a reportable
anomaly — it takes the ordinary reporting path, printing exactly the usual
two rate lines, with the speedup field holding the value of the ordinary
floating-point division at denominator zero (the non-finite quotient,
`none` in the embedding), and returns TF_OK. -/
theorem c8_zero_rate_counterexample :
    zeroRateSuite.bench.isSome = true ∧
    testsuite_run_bench ctx0 zeroRateSuite =
      (TestfuncResult.TF_OK, split_duration ctx0,
       [Event.sysRateLine "clock-gettime" 0,
        Event.vdsoRateLine "clock-gettime" 5 none]) :=
  ⟨rfl, rfl⟩

/-- C8 amended: on a failure-free bench run whose kernel-entry rate is
zero, the dispatcher neither crashes nor special-cases the ratio: it
returns TF_OK and prints the ordinary speedup line whose ratio field is
the ordinary floating-point quotient at denominator zero (non-finite). -/
theorem c8_zero_rate_ordinary_division (ctx : Ctx) (ts : TestSuite)
    (f : Ctx → Ctx × BenchResults × List Event) (h : ts.bench = some f)
    (hfail : (f (split_duration ctx)).1.fails = 0)
    (hzero : (f (split_duration ctx)).2.1.sys_interval.calls_per_sec = 0) :
    (testsuite_run_bench ctx ts).1 = TestfuncResult.TF_OK ∧
    Event.vdsoRateLine ts.name
        (f (split_duration ctx)).2.1.vdso_interval.calls_per_sec none ∈
      (testsuite_run_bench ctx ts).2.2 := by
  simp only [testsuite_run_bench, h]
  constructor
  · simp [hfail]
  · simp [hfail, hzero]

/-- Witness for the amended C8 at the concrete zero-rate suite. -/
theorem c8_zero_rate_ordinary_division_witness :
    (testsuite_run_bench ctx0 zeroRateSuite).1 = TestfuncResult.TF_OK ∧
    Event.vdsoRateLine zeroRateSuite.name
        (zeroRateBench (split_duration ctx0)).2.1.vdso_interval.calls_per_sec
        none ∈
      (testsuite_run_bench ctx0 zeroRateSuite).2.2 :=
  c8_zero_rate_ordinary_division ctx0 zeroRateSuite zeroRateBench rfl rfl rfl

/-- C9 counterexample: a bench run whose suite has a bench entry point but
whose entry point reports a failure prints no rate lines at all — the
dispatcher returns TF_FAIL before the report `printf`s, so its whole
output is the failure message. -/
theorem c9_failing_bench_counterexample :
    failSuite.bench.isSome = true ∧
    testsuite_run_bench ctx0 failSuite =
      (TestfuncResult.TF_FAIL, (log_failure (split_duration ctx0)).1,
       [Event.failureMsg]) :=
  ⟨rfl, rfl⟩

/-- C9 amended: on every bench run whose suite has a bench entry point and
whose failure counter is zero after the entry point returns, the harness
prints the kernel-entry calls-per-second line and the fast-path
calls-per-second line carrying the computed speedup ratio, as the final
two output lines. -/
theorem c9_bench_emits_rates (ctx : Ctx) (ts : TestSuite)
    (f : Ctx → Ctx × BenchResults × List Event) (h : ts.bench = some f)
    (hfail : (f (split_duration ctx)).1.fails = 0) :
    ∃ pre : List Event,
      (testsuite_run_bench ctx ts).2.2 =
        pre ++
        [Event.sysRateLine ts.name
           (f (split_duration ctx)).2.1.sys_interval.calls_per_sec,
         Event.vdsoRateLine ts.name
           (f (split_duration ctx)).2.1.vdso_interval.calls_per_sec
           (if (f (split_duration ctx)).2.1.sys_interval.calls_per_sec = 0
            then none
            else some
              (((f (split_duration ctx)).2.1.vdso_interval.calls_per_sec : ℚ) /
               ((f (split_duration ctx)).2.1.sys_interval.calls_per_sec : ℚ)))] := by
  refine ⟨(f (split_duration ctx)).2.2 ++
    (if (f (split_duration ctx)).1.verbose || (f (split_duration ctx)).1.debug
     then [Event.verboseBench ts.name
             (f (split_duration ctx)).2.1.sys_interval.calls
             (f (split_duration ctx)).2.1.vdso_interval.calls]
     else []), ?_⟩
  simp only [testsuite_run_bench, h]
  simp [hfail, List.append_assoc]

/-- Witness for the amended C9 at the deterministic bench suite. -/
theorem c9_bench_emits_rates_witness :
    ∃ pre : List Event,
      (testsuite_run_bench ctx0 okSuite).2.2 =
        pre ++
        [Event.sysRateLine "clock-gettime" 7,
         Event.vdsoRateLine "clock-gettime" 21
           (some (((21 : Nat) : ℚ) / ((7 : Nat) : ℚ)))] :=
  c9_bench_emits_rates ctx0 okSuite okBench rfl rfl

end Vdsotest
